import Mathlib

/-!
Verification of the background operation execution framework of the
`win_opt` repository: the worker message protocol (`src/types.rs`),
the external step runner and the three worker bodies (`src/executor.rs`),
the drain loop (`src/app.rs`), and the handle teardown (`src/types.rs`).

The worker bodies are embedded as pure functions over an explicit run
environment: the point (if any) at which the channel's receiving end is
dropped, the values read from the cancellation flag at each checkpoint,
and the outcome of each external process launch.  The state threaded
through a run records, as ghost instrumentation, the sequence of emitted
(successfully sent) messages, the sequence of attempted messages, the
invocations of the step runner, and the actual process launches.
-/

namespace WinOpt

/-- Operation lifecycle states, from `OperationState` in src/types.rs. -/
inductive OperationState
  | Idle
  | Starting
  | Running
  | Completed
  | Failed
deriving DecidableEq, Repr

/-- Cleanup statistics, from `CleanStats` in src/types.rs
(usize/u64 modelled as `Nat`). -/
structure CleanStats where
  deleted_count : Nat
  failed_count : Nat
  size_freed : Nat
deriving DecidableEq, Repr

/-- Messages sent from a worker thread to the main thread,
from `WorkerMessage` in src/types.rs. -/
inductive WorkerMessage
  | Log (s : String)
  | StateChange (st : OperationState)
  | StatsUpdate (c : CleanStats)
  | Error (s : String)
  | Completed
deriving DecidableEq, Repr

/-- Whether the i-th send attempt on the progress channel succeeds.
`closedFrom = some k` models the receiving end being dropped so that
attempts `k, k+1, ...` all fail (mpsc disconnection is permanent);
`none` models a receiver that stays alive for the whole run. -/
def sendOK (closedFrom : Option Nat) (i : Nat) : Bool :=
  match closedFrom with
  | none => true
  | some k => decide (i < k)

/-- Worker-side view of one run: `n` counts send attempts so far, `tr` is
the list of successfully sent (emitted) messages in order, `atr` the list
of all attempted messages in order, `calls` records each invocation of
`execute_command` (command name and arguments), and `launches` records
each actual external process launch together with the value of the
attempt counter at launch time.  `tr`, `atr`, `calls` and `launches` are
ghost instrumentation recording events of the run. -/
structure ExecSt where
  n : Nat
  tr : List WorkerMessage
  atr : List WorkerMessage
  calls : List (String × List String)
  launches : List (Nat × String × List String)
deriving DecidableEq, Repr

/-- Initial state of a worker run: nothing attempted yet. -/
def ExecSt.init : ExecSt := ⟨0, [], [], [], []⟩

/-- One `sender.send(m)` (the common content of `send_log`, `send_state`,
`send_error` in src/executor.rs): the attempt is recorded; the message
lands in the emitted trace iff the channel is still open at this attempt.
Returns the `Bool` the Rust helpers return (`send(..).is_ok()`). -/
def send1 (cf : Option Nat) (s : ExecSt) (m : WorkerMessage) : ExecSt × Bool :=
  let ok := sendOK cf s.n
  (⟨s.n + 1, if ok then s.tr ++ [m] else s.tr, s.atr ++ [m], s.calls, s.launches⟩, ok)

/-- Outcome of `Command::new(..).args(..).output()`: either the launch
failed (`err` with the error text), or the process ran to completion with
the given stdout lines, stderr lines (as split by Rust `str::lines`),
exit code, and success flag of the exit status. -/
structure CmdOutput where
  stdout : List String
  stderr : List String
  code : Option Int
  success : Bool
deriving DecidableEq, Repr

/-- Result of one external launch, supplied by the run environment. -/
inductive CmdResult
  | ok (o : CmdOutput)
  | err (e : String)
deriving DecidableEq, Repr

/-- Whether the external process ran and exited with a success status. -/
def CmdResult.isSuccess : CmdResult → Bool
  | .ok o => o.success
  | .err _ => false

/-- Rust `format!("{:?}", status.code())` on the `Option<i32>` exit code. -/
def fmtCode : Option Int → String
  | none => "None"
  | some c => "Some(" ++ toString c ++ ")"

/-- Rust `line.trim().is_empty()`: a line is blank iff every character
is whitespace (trimming leading and trailing whitespace leaves the empty
string exactly when there is no non-whitespace character). -/
def isBlank (l : String) : Bool := l.data.all (fun ch => ch.isWhitespace)

/-- Body of the two `for line in ...lines()` loops of `execute_command`:
a line whose trim is empty is skipped without a send; otherwise the line
(prefixed with `pre`, which is `""` for stdout and `"ERROR: "` for
stderr) is sent as a `Log`, and a failed send aborts the whole call,
mirroring the early `return false`. -/
def sendLines (cf : Option Nat) (pre : String) : ExecSt → List String → ExecSt × Bool
  | s, [] => (s, true)
  | s, l :: rest =>
    if isBlank l then sendLines cf pre s rest
    else
      let p := send1 cf s (.Log (pre ++ l))
      if p.2 then sendLines cf pre p.1 rest else (p.1, false)

/-- `execute_command` from src/executor.rs: send a header log (a failed
send returns `false` before the process is launched); launch the process
(recorded in `launches`); on launch failure send an `Error` with the
reason and return `false`; otherwise stream the non-blank stdout lines,
then the non-blank stderr lines tagged `"ERROR: "`, aborting on a failed
send; finally send a status log and return whether the exit status was a
success.  `r` is the environment's outcome for this launch. -/
def execute_command (cf : Option Nat) (s0 : ExecSt) (command : String)
    (args : List String) (r : CmdResult) : ExecSt × Bool :=
  let s1 : ExecSt := ⟨s0.n, s0.tr, s0.atr, s0.calls ++ [(command, args)], s0.launches⟩
  let p := send1 cf s1 (.Log ("Ejecutando: " ++ command ++ " " ++ String.intercalate " " args))
  if !p.2 then (p.1, false)
  else
    let s2 : ExecSt := ⟨p.1.n, p.1.tr, p.1.atr, p.1.calls,
      p.1.launches ++ [(p.1.n, command, args)]⟩
    match r with
    | .err e => ((send1 cf s2 (.Error ("Error al ejecutar comando: " ++ e))).1, false)
    | .ok o =>
      let q := sendLines cf "" s2 o.stdout
      if !q.2 then (q.1, false)
      else
        let q2 := sendLines cf "ERROR: " q.1 o.stderr
        if !q2.2 then (q2.1, false)
        else
          if o.success then
            ((send1 cf q2.1 (.Log "✓ Comando completado exitosamente")).1, true)
          else
            ((send1 cf q2.1 (.Log ("✗ Comando falló con código: " ++ fmtCode o.code))).1, false)

/-- Run environment for one execution of the repair worker: channel
closure point, the two cancellation-flag reads (before DISM and before
SFC), and the outcomes of the DISM and SFC launches. -/
structure RepairEnv where
  cf : Option Nat
  c1 : Bool
  c2 : Bool
  r1 : CmdResult
  r2 : CmdResult

/-- Body of the thread spawned by `spawn_repair_worker` in
src/executor.rs, as a function of the run environment. -/
def spawn_repair_worker (env : RepairEnv) : ExecSt :=
  let p := send1 env.cf ExecSt.init (.StateChange .Running)
  if !p.2 then p.1
  else
    let q := send1 env.cf p.1 (.Log "=== Iniciando Reparación del Sistema ===")
    if !q.2 then q.1
    else
      if env.c1 then
        let s := (send1 env.cf q.1 (.Log "Operación cancelada por el usuario")).1
        let s := (send1 env.cf s (.StateChange .Failed)).1
        (send1 env.cf s .Completed).1
      else
        let s := (send1 env.cf q.1 (.Log "Paso 1/2: Ejecutando DISM...")).1
        let s := (send1 env.cf s
          (.Log "Esto puede tomar entre 5-30 minutos dependiendo del sistema.")).1
        let d := execute_command env.cf s "cmd"
          ["/C", "DISM /Online /Cleanup-Image /RestoreHealth"] env.r1
        let s := if !d.2 then
            (send1 env.cf d.1 (.Error "DISM falló. Continuando con SFC de todas formas...")).1
          else d.1
        if env.c2 then
          let s := (send1 env.cf s (.Log "Operación cancelada por el usuario")).1
          let s := (send1 env.cf s (.StateChange .Failed)).1
          (send1 env.cf s .Completed).1
        else
          let s := (send1 env.cf s (.Log "Paso 2/2: Ejecutando SFC...")).1
          let s := (send1 env.cf s
            (.Log "Verificando integridad de archivos del sistema...")).1
          let f := execute_command env.cf s "cmd" ["/C", "sfc /scannow"] env.r2
          let s :=
            if d.2 && f.2 then
              let s := (send1 env.cf f.1 (.Log "=== Reparación completada exitosamente ===")).1
              (send1 env.cf s (.StateChange .Completed)).1
            else
              let s := (send1 env.cf f.1 (.Error "Reparación completada con errores")).1
              (send1 env.cf s (.StateChange .Failed)).1
          (send1 env.cf s .Completed).1

/-- Run environment for one execution of a single-step worker: channel
closure point, the cancellation-flag read, and the launch outcome. -/
structure SingleEnv where
  cf : Option Nat
  c1 : Bool
  r : CmdResult

/-- Body of the thread spawned by `spawn_windows_update_worker` in
src/executor.rs. -/
def spawn_windows_update_worker (env : SingleEnv) : ExecSt :=
  let p := send1 env.cf ExecSt.init (.StateChange .Running)
  if !p.2 then p.1
  else
    let q := send1 env.cf p.1 (.Log "=== Iniciando Limpieza de Windows Update ===")
    if !q.2 then q.1
    else
      if env.c1 then
        let s := (send1 env.cf q.1 (.Log "Operación cancelada por el usuario")).1
        let s := (send1 env.cf s (.StateChange .Failed)).1
        (send1 env.cf s .Completed).1
      else
        let s := (send1 env.cf q.1 (.Log "Ejecutando DISM para limpiar caché...")).1
        let s := (send1 env.cf s (.Log "Esta operación puede tardar varios minutos...")).1
        let d := execute_command env.cf s "cmd"
          ["/C", "DISM /Online /Cleanup-Image /StartComponentCleanup /ResetBase"] env.r
        let s :=
          if d.2 then
            let s := (send1 env.cf d.1 (.Log "=== Limpieza completada exitosamente ===")).1
            (send1 env.cf s (.StateChange .Completed)).1
          else
            let s := (send1 env.cf d.1 (.Error "Limpieza falló")).1
            (send1 env.cf s (.StateChange .Failed)).1
        (send1 env.cf s .Completed).1

/-- Body of the thread spawned by `spawn_command_worker` in
src/executor.rs, for a given command, argument list and description. -/
def spawn_command_worker (command : String) (args : List String)
    (description : String) (env : SingleEnv) : ExecSt :=
  let p := send1 env.cf ExecSt.init (.StateChange .Running)
  if !p.2 then p.1
  else
    let q := send1 env.cf p.1 (.Log ("=== " ++ description ++ " ==="))
    if !q.2 then q.1
    else
      if env.c1 then
        let s := (send1 env.cf q.1 (.Log "Operación cancelada por el usuario")).1
        let s := (send1 env.cf s (.StateChange .Failed)).1
        (send1 env.cf s .Completed).1
      else
        let d := execute_command env.cf q.1 command args env.r
        let s :=
          if d.2 then
            let s := (send1 env.cf d.1 (.Log ("=== " ++ description ++ " completado ==="))).1
            (send1 env.cf s (.StateChange .Completed)).1
          else
            let s := (send1 env.cf d.1 (.Error (description ++ " falló"))).1
            (send1 env.cf s (.StateChange .Failed)).1
        (send1 env.cf s .Completed).1

/-- The worker-relevant fields of `App` (src/app.rs): the operation log
buffer, the current operation state, the current counters, and whether
the worker-handle slot is occupied (`worker_handle.is_some()`). -/
structure AppSt where
  operation_logs : List String
  operation_state : OperationState
  clean_stats : CleanStats
  worker_handle : Bool
deriving DecidableEq, Repr

/-- One arm of the `match message` inside `App::process_worker_messages`:
the mutated state, and whether this message sets `should_clear_worker`. -/
def applyMsg (st : AppSt) : WorkerMessage → AppSt × Bool
  | .Log l => (⟨st.operation_logs ++ [l], st.operation_state, st.clean_stats,
      st.worker_handle⟩, false)
  | .StateChange s => (⟨st.operation_logs, s, st.clean_stats, st.worker_handle⟩, false)
  | .StatsUpdate c => (⟨st.operation_logs, st.operation_state, c, st.worker_handle⟩, false)
  | .Error e => (⟨st.operation_logs ++ ["❌ ERROR: " ++ e], st.operation_state,
      st.clean_stats, st.worker_handle⟩, false)
  | .Completed => (st, true)

/-- The `while let Ok(message) = handle.receiver.try_recv()` loop of
`App::process_worker_messages`: the non-blocking drain consumes exactly
the messages currently pending on the channel, accumulating the
`should_clear_worker` flag. -/
def drainLoop : AppSt → Bool → List WorkerMessage → AppSt × Bool
  | st, clear, [] => (st, clear)
  | st, clear, m :: rest =>
    let p := applyMsg st m
    drainLoop p.1 (clear || p.2) rest

/-- `App::process_worker_messages` (src/app.rs): when the handle slot is
occupied, drain all pending messages without blocking and, if a
`Completed` was observed, clear the worker-handle slot after the loop;
when the slot is empty nothing happens.  `pending` is the queue of
messages currently buffered in the channel. -/
def process_worker_messages (st : AppSt) (pending : List WorkerMessage) : AppSt :=
  if st.worker_handle then
    let p := drainLoop st false pending
    if p.2 then ⟨p.1.operation_logs, p.1.operation_state, p.1.clean_stats, false⟩ else p.1
  else st

/-- The owner-side view of a `WorkerHandle` (src/types.rs) at teardown:
whether a join handle for the background thread is present. -/
structure WorkerHandleM where
  thread_handle : Option Unit

/-- One action performed by `Drop for WorkerHandle`. -/
inductive DropStep
  | storeFlag (b : Bool)
  | joinThread
deriving DecidableEq, Repr

/-- `impl Drop for WorkerHandle` (src/types.rs): first store `true` into
the shared cancellation flag, then, if a thread handle is present, take
it and join the thread.  The list is the sequence of teardown actions in
program order. -/
def WorkerHandleM.dropActions (h : WorkerHandleM) : List DropStep :=
  [.storeFlag true] ++ (match h.thread_handle with
    | some _ => [.joinThread]
    | none => [])

/-- Shared state observed across the teardown: the cancellation flag and
whether the background thread is still running. -/
structure ThreadSt where
  cancel_flag : Bool
  running : Bool
deriving DecidableEq, Repr

/-- Semantics of one teardown action: `storeFlag b` is the atomic store
into the cancellation flag; `joinThread` models `JoinHandle::join`, which
blocks and returns only once the thread has exited, so after it the
thread is no longer running. -/
def applyDropStep (t : ThreadSt) : DropStep → ThreadSt
  | .storeFlag b => ⟨b, t.running⟩
  | .joinThread => ⟨t.cancel_flag, false⟩

/-- Effect of running a handle's whole drop sequence on the shared state. -/
def runDrop (t : ThreadSt) (h : WorkerHandleM) : ThreadSt :=
  h.dropActions.foldl applyDropStep t

/-! Characterization of runs with the channel open (`cf = none`). -/

/-- Effect on the worker state of emitting `ms` with the channel open. -/
def ExecSt.emit (s : ExecSt) (ms : List WorkerMessage) : ExecSt :=
  ⟨s.n + ms.length, s.tr ++ ms, s.atr ++ ms, s.calls, s.launches⟩

/-- All messages sent by `execute_command` with the channel open, for the
given launch outcome. -/
def cmdMsgs (command : String) (args : List String) : CmdResult → List WorkerMessage
  | .err e =>
      [.Log ("Ejecutando: " ++ command ++ " " ++ String.intercalate " " args),
       .Error ("Error al ejecutar comando: " ++ e)]
  | .ok o =>
      .Log ("Ejecutando: " ++ command ++ " " ++ String.intercalate " " args) ::
        ((o.stdout.filter (fun l => !isBlank l)).map (fun l => .Log ("" ++ l)) ++
         (o.stderr.filter (fun l => !isBlank l)).map (fun l => .Log ("ERROR: " ++ l)) ++
         [if o.success then .Log "✓ Comando completado exitosamente"
          else .Log ("✗ Comando falló con código: " ++ fmtCode o.code)])

/-- State after one open-channel run of the step runner: the `cmdMsgs`
are emitted, one call and one launch are recorded. -/
def ExecSt.afterCmd (s : ExecSt) (command : String) (args : List String)
    (r : CmdResult) : ExecSt :=
  ⟨s.n + (cmdMsgs command args r).length, s.tr ++ cmdMsgs command args r,
   s.atr ++ cmdMsgs command args r, s.calls ++ [(command, args)],
   s.launches ++ [(s.n + 1, command, args)]⟩

theorem emit_nil (s : ExecSt) : s.emit [] = s := by
  simp [ExecSt.emit]

theorem emit_append (s : ExecSt) (a b : List WorkerMessage) :
    (s.emit a).emit b = s.emit (a ++ b) := by
  simp [ExecSt.emit, Nat.add_assoc]

theorem send1_none (s : ExecSt) (m : WorkerMessage) :
    send1 none s m = (s.emit [m], true) := by
  simp [send1, sendOK, ExecSt.emit]

theorem sendLines_none (pre : String) (ls : List String) : ∀ (s : ExecSt),
    sendLines none pre s ls =
      (s.emit ((ls.filter (fun l => !isBlank l)).map (fun l => .Log (pre ++ l))), true) := by
  induction ls with
  | nil => intro s; simp [sendLines, emit_nil]
  | cons l rest ih =>
    intro s
    by_cases h : isBlank l
    · simp [sendLines, h, ih, List.filter_cons]
    · simp [sendLines, h, send1_none, ih, List.filter_cons, emit_append]

theorem execute_command_none (s : ExecSt) (c : String) (a : List String) (r : CmdResult) :
    execute_command none s c a r = (s.afterCmd c a r, r.isSuccess) := by
  cases r with
  | err e =>
    simp [execute_command, send1_none, ExecSt.emit, ExecSt.afterCmd, cmdMsgs,
      CmdResult.isSuccess]
  | ok o =>
    cases h : o.success <;>
      · simp [execute_command, send1_none, sendLines_none, ExecSt.emit, ExecSt.afterCmd,
          cmdMsgs, CmdResult.isSuccess, h, Nat.add_assoc, List.append_assoc]
        omega

theorem emit_tr (s : ExecSt) (ms : List WorkerMessage) : (s.emit ms).tr = s.tr ++ ms := rfl

theorem emit_calls (s : ExecSt) (ms : List WorkerMessage) : (s.emit ms).calls = s.calls := rfl

theorem emit_launches (s : ExecSt) (ms : List WorkerMessage) :
    (s.emit ms).launches = s.launches := rfl

theorem afterCmd_tr (s : ExecSt) (c : String) (a : List String) (r : CmdResult) :
    (s.afterCmd c a r).tr = s.tr ++ cmdMsgs c a r := rfl

theorem afterCmd_calls (s : ExecSt) (c : String) (a : List String) (r : CmdResult) :
    (s.afterCmd c a r).calls = s.calls ++ [(c, a)] := rfl

theorem afterCmd_launches (s : ExecSt) (c : String) (a : List String) (r : CmdResult) :
    (s.afterCmd c a r).launches = s.launches ++ [(s.n + 1, c, a)] := rfl

/-- State of the repair worker (open channel, no cancellation observed at
the first checkpoint) right after the DISM step and its conditional
failure notice. -/
def repairMid (r1 : CmdResult) : ExecSt :=
  let s := (ExecSt.init.emit
      [.StateChange .Running, .Log "=== Iniciando Reparación del Sistema ===",
       .Log "Paso 1/2: Ejecutando DISM...",
       .Log "Esto puede tomar entre 5-30 minutos dependiendo del sistema."]).afterCmd
    "cmd" ["/C", "DISM /Online /Cleanup-Image /RestoreHealth"] r1
  if r1.isSuccess then s
  else s.emit [.Error "DISM falló. Continuando con SFC de todas formas..."]

theorem repair_none_c1 (c2 : Bool) (r1 r2 : CmdResult) :
    spawn_repair_worker ⟨none, true, c2, r1, r2⟩ =
      ExecSt.init.emit
        [.StateChange .Running, .Log "=== Iniciando Reparación del Sistema ===",
         .Log "Operación cancelada por el usuario", .StateChange .Failed, .Completed] := by
  simp [spawn_repair_worker, send1_none, emit_append]

theorem repair_none_c2 (r1 r2 : CmdResult) :
    spawn_repair_worker ⟨none, false, true, r1, r2⟩ =
      (repairMid r1).emit
        [.Log "Operación cancelada por el usuario", .StateChange .Failed, .Completed] := by
  cases h : r1.isSuccess <;>
    simp [spawn_repair_worker, send1_none, execute_command_none, repairMid, h, emit_append]

theorem repair_none_main (r1 r2 : CmdResult) :
    spawn_repair_worker ⟨none, false, false, r1, r2⟩ =
      (((repairMid r1).emit
          [.Log "Paso 2/2: Ejecutando SFC...",
           .Log "Verificando integridad de archivos del sistema..."]).afterCmd
        "cmd" ["/C", "sfc /scannow"] r2).emit
        (if r1.isSuccess && r2.isSuccess then
          [.Log "=== Reparación completada exitosamente ===", .StateChange .Completed,
           .Completed]
         else
          [.Error "Reparación completada con errores", .StateChange .Failed, .Completed]) := by
  cases h1 : r1.isSuccess <;> cases h2 : r2.isSuccess <;>
    simp [spawn_repair_worker, send1_none, execute_command_none, repairMid, h1, h2,
      emit_append]

theorem update_none_c1 (r : CmdResult) :
    spawn_windows_update_worker ⟨none, true, r⟩ =
      ExecSt.init.emit
        [.StateChange .Running, .Log "=== Iniciando Limpieza de Windows Update ===",
         .Log "Operación cancelada por el usuario", .StateChange .Failed, .Completed] := by
  simp [spawn_windows_update_worker, send1_none, emit_append]

theorem update_none_main (r : CmdResult) :
    spawn_windows_update_worker ⟨none, false, r⟩ =
      ((ExecSt.init.emit
          [.StateChange .Running, .Log "=== Iniciando Limpieza de Windows Update ===",
           .Log "Ejecutando DISM para limpiar caché...",
           .Log "Esta operación puede tardar varios minutos..."]).afterCmd
        "cmd" ["/C", "DISM /Online /Cleanup-Image /StartComponentCleanup /ResetBase"] r).emit
        (if r.isSuccess then
          [.Log "=== Limpieza completada exitosamente ===", .StateChange .Completed,
           .Completed]
         else [.Error "Limpieza falló", .StateChange .Failed, .Completed]) := by
  cases h : r.isSuccess <;>
    simp [spawn_windows_update_worker, send1_none, execute_command_none, h, emit_append]

theorem command_none_c1 (c : String) (a : List String) (d : String) (r : CmdResult) :
    spawn_command_worker c a d ⟨none, true, r⟩ =
      ExecSt.init.emit
        [.StateChange .Running, .Log ("=== " ++ d ++ " ==="),
         .Log "Operación cancelada por el usuario", .StateChange .Failed, .Completed] := by
  simp [spawn_command_worker, send1_none, emit_append]

theorem command_none_main (c : String) (a : List String) (d : String) (r : CmdResult) :
    spawn_command_worker c a d ⟨none, false, r⟩ =
      ((ExecSt.init.emit
          [.StateChange .Running, .Log ("=== " ++ d ++ " ===")]).afterCmd c a r).emit
        (if r.isSuccess then
          [.Log ("=== " ++ d ++ " completado ==="), .StateChange .Completed, .Completed]
         else [.Error (d ++ " falló"), .StateChange .Failed, .Completed]) := by
  cases h : r.isSuccess <;>
    simp [spawn_command_worker, send1_none, execute_command_none, h, emit_append]

theorem init_tr : ExecSt.init.tr = [] := rfl

theorem init_calls : ExecSt.init.calls = [] := rfl

theorem init_launches : ExecSt.init.launches = [] := rfl

theorem completed_not_mem_cmdMsgs (c : String) (a : List String) (r : CmdResult) :
    WorkerMessage.Completed ∉ cmdMsgs c a r := by
  cases r with
  | err e => simp [cmdMsgs]
  | ok o => cases h : o.success <;> simp [cmdMsgs, h]

theorem count_completed_cmdMsgs (c : String) (a : List String) (r : CmdResult) :
    (cmdMsgs c a r).count WorkerMessage.Completed = 0 :=
  List.count_eq_zero.mpr (completed_not_mem_cmdMsgs c a r)

theorem tr_getLast_emit (s : ExecSt) (ms : List WorkerMessage) (h : ms ≠ []) :
    ((s.emit ms).tr).getLast? = ms.getLast? := by
  rw [emit_tr, List.getLast?_append_of_ne_nil _ h]

/-- C1: for every launched worker operation (repair, Windows-Update
cleanup, generic command), over any run in which the receiver stays
alive (`cf = none`), any cancellation-flag readings and any launch
outcomes, the emitted trace contains exactly one `Completed` message and
that `Completed` is the last message sent on the channel. -/
theorem completed_exactly_once_and_last (c1 c2 : Bool) (r1 r2 ru rc : CmdResult)
    (c : String) (a : List String) (d : String) :
    ((spawn_repair_worker ⟨none, c1, c2, r1, r2⟩).tr.count WorkerMessage.Completed = 1 ∧
      (spawn_repair_worker ⟨none, c1, c2, r1, r2⟩).tr.getLast? =
        some WorkerMessage.Completed) ∧
    ((spawn_windows_update_worker ⟨none, c1, ru⟩).tr.count WorkerMessage.Completed = 1 ∧
      (spawn_windows_update_worker ⟨none, c1, ru⟩).tr.getLast? =
        some WorkerMessage.Completed) ∧
    ((spawn_command_worker c a d ⟨none, c1, rc⟩).tr.count WorkerMessage.Completed = 1 ∧
      (spawn_command_worker c a d ⟨none, c1, rc⟩).tr.getLast? =
        some WorkerMessage.Completed) := by
  refine ⟨?_, ?_, ?_⟩
  · cases c1
    · cases c2
      · rw [repair_none_main]
        constructor
        · cases h1 : r1.isSuccess <;> cases h2 : r2.isSuccess <;>
            simp [repairMid, h1, h2, emit_tr, afterCmd_tr, init_tr, List.count_append,
              count_completed_cmdMsgs]
        · rw [tr_getLast_emit _ _ (by cases h : r1.isSuccess && r2.isSuccess <;> simp [h])]
          cases h : r1.isSuccess && r2.isSuccess <;> simp [h]
      · rw [repair_none_c2]
        constructor
        · cases h1 : r1.isSuccess <;>
            simp [repairMid, h1, emit_tr, afterCmd_tr, init_tr, List.count_append,
              count_completed_cmdMsgs]
        · rw [tr_getLast_emit _ _ (by simp)]
          rfl
    · rw [repair_none_c1]
      constructor
      · simp [emit_tr, init_tr]
      · rw [tr_getLast_emit _ _ (by simp)]
        rfl
  · cases c1
    · rw [update_none_main]
      constructor
      · cases h : ru.isSuccess <;>
          simp [h, emit_tr, afterCmd_tr, init_tr, List.count_append,
            count_completed_cmdMsgs]
      · rw [tr_getLast_emit _ _ (by cases h : ru.isSuccess <;> simp [h])]
        cases h : ru.isSuccess <;> simp [h]
    · rw [update_none_c1]
      constructor
      · simp [emit_tr, init_tr]
      · rw [tr_getLast_emit _ _ (by simp)]
        rfl
  · cases c1
    · rw [command_none_main]
      constructor
      · cases h : rc.isSuccess <;>
          simp [h, emit_tr, afterCmd_tr, init_tr, List.count_append,
            count_completed_cmdMsgs]
      · rw [tr_getLast_emit _ _ (by cases h : rc.isSuccess <;> simp [h])]
        cases h : rc.isSuccess <;> simp [h]
    · rw [command_none_c1]
      constructor
      · simp [emit_tr, init_tr]
      · rw [tr_getLast_emit _ _ (by simp)]
        rfl

/-- The three messages of the worker cancellation path, in order. -/
def cancelMsgs : List WorkerMessage :=
  [.Log "Operación cancelada por el usuario", .StateChange .Failed, .Completed]

/-- C3: with the receiver alive, whenever a worker observes the
cancellation flag set at a checkpoint it emits, as the final messages of
its trace, `Log("Operación cancelada por el usuario")`, then
`StateChange(Failed)`, then `Completed` (so the terminal state is
`Failed`, never `Completed`), and it returns without invoking the step
runner for that step or any later one: the repair worker cancelled at
the first checkpoint records no runner call; cancelled at the second
checkpoint it records only the DISM call; the single-step workers
cancelled at their checkpoint record no runner call. -/
theorem cancellation_failed_terminal_and_skips_steps (c2 : Bool) (r1 r2 ru rc : CmdResult)
    (c : String) (a : List String) (d : String) :
    (cancelMsgs <:+ (spawn_repair_worker ⟨none, true, c2, r1, r2⟩).tr ∧
      (spawn_repair_worker ⟨none, true, c2, r1, r2⟩).calls = []) ∧
    (cancelMsgs <:+ (spawn_repair_worker ⟨none, false, true, r1, r2⟩).tr ∧
      (spawn_repair_worker ⟨none, false, true, r1, r2⟩).calls =
        [("cmd", ["/C", "DISM /Online /Cleanup-Image /RestoreHealth"])]) ∧
    (cancelMsgs <:+ (spawn_windows_update_worker ⟨none, true, ru⟩).tr ∧
      (spawn_windows_update_worker ⟨none, true, ru⟩).calls = []) ∧
    (cancelMsgs <:+ (spawn_command_worker c a d ⟨none, true, rc⟩).tr ∧
      (spawn_command_worker c a d ⟨none, true, rc⟩).calls = []) := by
  refine ⟨⟨?_, ?_⟩, ⟨?_, ?_⟩, ⟨?_, ?_⟩, ⟨?_, ?_⟩⟩
  · rw [repair_none_c1, emit_tr, init_tr]
    exact List.suffix_append
      [WorkerMessage.StateChange .Running,
       WorkerMessage.Log "=== Iniciando Reparación del Sistema ==="] cancelMsgs
  · rw [repair_none_c1]; rfl
  · rw [repair_none_c2, emit_tr]
    exact List.suffix_append _ cancelMsgs
  · rw [repair_none_c2, emit_calls]
    cases h1 : r1.isSuccess <;>
      simp [repairMid, h1, emit_calls, afterCmd_calls, init_calls]
  · rw [update_none_c1, emit_tr, init_tr]
    exact List.suffix_append
      [WorkerMessage.StateChange .Running,
       WorkerMessage.Log "=== Iniciando Limpieza de Windows Update ==="] cancelMsgs
  · rw [update_none_c1]; rfl
  · rw [command_none_c1, emit_tr, init_tr]
    exact List.suffix_append
      [WorkerMessage.StateChange .Running, WorkerMessage.Log ("=== " ++ d ++ " ===")]
      cancelMsgs
  · rw [command_none_c1]; rfl

theorem drop_two_of_append_three {α : Type} (X : List α) (a b c : α) :
    (X ++ [a, b, c]).drop ((X ++ [a, b, c]).length - 2) = [b, c] := by
  have h : X ++ [a, b, c] = (X ++ [a]) ++ [b, c] := by simp
  rw [h]
  have h2 : ((X ++ [a]) ++ [b, c]).length - 2 = (X ++ [a]).length := by simp
  rw [h2, List.drop_left]

/-- C5: for the repair operation with the receiver alive and no
cancellation observed, both steps are invoked (DISM then SFC) and both
processes are launched, whatever the outcome of the first step; the last
two emitted messages are `StateChange(Completed)` exactly when both
steps succeeded and `StateChange(Failed)` otherwise, followed
unconditionally by the single `Completed` sentinel. -/
theorem repair_continue_on_failure_and_final_state (r1 r2 : CmdResult) :
    (spawn_repair_worker ⟨none, false, false, r1, r2⟩).calls =
      [("cmd", ["/C", "DISM /Online /Cleanup-Image /RestoreHealth"]),
       ("cmd", ["/C", "sfc /scannow"])] ∧
    (spawn_repair_worker ⟨none, false, false, r1, r2⟩).launches.length = 2 ∧
    (spawn_repair_worker ⟨none, false, false, r1, r2⟩).tr.drop
        ((spawn_repair_worker ⟨none, false, false, r1, r2⟩).tr.length - 2) =
      [.StateChange (if r1.isSuccess && r2.isSuccess then .Completed else .Failed),
       .Completed] ∧
    (spawn_repair_worker ⟨none, false, false, r1, r2⟩).tr.count
      WorkerMessage.Completed = 1 := by
  refine ⟨?_, ?_, ?_, ?_⟩
  · rw [repair_none_main, emit_calls]
    cases h1 : r1.isSuccess <;>
      simp [repairMid, h1, emit_calls, afterCmd_calls, init_calls]
  · rw [repair_none_main, emit_launches]
    cases h1 : r1.isSuccess <;>
      simp [repairMid, h1, emit_launches, afterCmd_launches, init_launches]
  · rw [repair_none_main, emit_tr]
    cases h : r1.isSuccess && r2.isSuccess
    · simp only [Bool.false_eq_true, if_false]
      exact drop_two_of_append_three _ _ _ _
    · simp only [if_true]
      exact drop_two_of_append_three _ _ _ _
  · rw [repair_none_main]
    cases h1 : r1.isSuccess <;> cases h2 : r2.isSuccess <;>
      simp [repairMid, h1, h2, emit_tr, afterCmd_tr, init_tr, List.count_append,
        count_completed_cmdMsgs]

/-! Runs with the channel closed from attempt `k` (`cf = some k`). -/

/-- Invariant of a worker run whose channel is closed from attempt `k`:
the attempt counter equals the number of recorded attempts, the emitted
messages are exactly the first `k` attempted messages (nothing is
emitted from the failure point on), and every recorded process launch
happened at a counter value at most `k`, i.e. no process is launched
once a send has failed (its header send, one attempt earlier, must have
succeeded). -/
def ClosedInv (k : Nat) (s : ExecSt) : Prop :=
  s.n = s.atr.length ∧ s.tr = s.atr.take k ∧ ∀ p ∈ s.launches, p.1 ≤ k

theorem init_closed_inv (k : Nat) : ClosedInv k ExecSt.init := by
  refine ⟨rfl, by simp [ExecSt.init], by simp [ExecSt.init]⟩

theorem send1_closed_inv (k : Nat) (s : ExecSt) (m : WorkerMessage)
    (h : ClosedInv k s) : ClosedInv k (send1 (some k) s m).1 := by
  obtain ⟨hn, htr, hl⟩ := h
  refine ⟨?_, ?_, ?_⟩
  · simp [send1, hn]
  · by_cases hk : s.n < k
    · have hok : sendOK (some k) s.n = true := by simp [sendOK, hk]
      simp only [send1, hok, if_true]
      rw [htr, List.take_append_eq_append_take,
        List.take_of_length_le
          (show ([m] : List WorkerMessage).length ≤ k - s.atr.length by simp; omega)]
    · have hok : sendOK (some k) s.n = false := by simp [sendOK]; omega
      simp only [send1, hok, Bool.false_eq_true, if_false]
      rw [htr, List.take_append_eq_append_take,
        show k - s.atr.length = 0 from by omega]
      simp
  · simpa [send1] using hl

theorem sendLines_closed_inv (k : Nat) (pre : String) (ls : List String) :
    ∀ s : ExecSt, ClosedInv k s → ClosedInv k (sendLines (some k) pre s ls).1 := by
  induction ls with
  | nil => intro s h; simpa [sendLines] using h
  | cons l rest ih =>
    intro s h
    rw [sendLines]
    by_cases hb : isBlank l
    · simpa [hb] using ih s h
    · simp only [hb, Bool.false_eq_true, if_false]
      by_cases hp : (send1 (some k) s (.Log (pre ++ l))).2 = true
      · simpa [hp] using ih _ (send1_closed_inv k s _ h)
      · simpa [hp] using send1_closed_inv k s _ h

theorem launch_closed_inv (k : Nat) (s : ExecSt) (m : WorkerMessage) (c : String)
    (a : List String) (hok : (send1 (some k) s m).2 = true) (h : ClosedInv k s) :
    ClosedInv k ⟨(send1 (some k) s m).1.n, (send1 (some k) s m).1.tr,
      (send1 (some k) s m).1.atr, (send1 (some k) s m).1.calls,
      (send1 (some k) s m).1.launches ++ [((send1 (some k) s m).1.n, c, a)]⟩ := by
  obtain ⟨hn2, htr2, hl2⟩ := send1_closed_inv k s m h
  refine ⟨hn2, htr2, ?_⟩
  intro p hp
  rcases List.mem_append.mp hp with h4 | h4
  · exact hl2 p h4
  · have hlt : s.n < k := by simpa [send1, sendOK] using hok
    have h5 := List.mem_singleton.mp h4
    subst h5
    simp [send1]
    omega

theorem execute_command_closed_inv (k : Nat) (s : ExecSt) (c : String)
    (a : List String) (r : CmdResult) (h : ClosedInv k s) :
    ClosedInv k (execute_command (some k) s c a r).1 := by
  have h1 : ClosedInv k (⟨s.n, s.tr, s.atr, s.calls ++ [(c, a)], s.launches⟩ : ExecSt) :=
    ⟨h.1, h.2.1, h.2.2⟩
  unfold execute_command
  cases r with
  | err e =>
    dsimp only
    split
    · exact send1_closed_inv k _ _ h1
    · rename_i hok
      have hok2 : (send1 (some k)
          (⟨s.n, s.tr, s.atr, s.calls ++ [(c, a)], s.launches⟩ : ExecSt)
          (.Log ("Ejecutando: " ++ c ++ " " ++ String.intercalate " " a))).2 = true := by
        simpa using hok
      exact send1_closed_inv k _ _ (launch_closed_inv k _ _ c a hok2 h1)
  | ok o =>
    dsimp only
    split
    · exact send1_closed_inv k _ _ h1
    · rename_i hok
      have hok2 : (send1 (some k)
          (⟨s.n, s.tr, s.atr, s.calls ++ [(c, a)], s.launches⟩ : ExecSt)
          (.Log ("Ejecutando: " ++ c ++ " " ++ String.intercalate " " a))).2 = true := by
        simpa using hok
      have h3 := launch_closed_inv k _ _ c a hok2 h1
      have h6 := sendLines_closed_inv k "" o.stdout _ h3
      split
      · exact h6
      · have h7 := sendLines_closed_inv k "ERROR: " o.stderr _ h6
        split
        · exact h7
        · split
          · exact send1_closed_inv k _ _ h7
          · exact send1_closed_inv k _ _ h7

theorem repair_closed_inv (k : Nat) (c1 c2 : Bool) (r1 r2 : CmdResult) :
    ClosedInv k (spawn_repair_worker ⟨some k, c1, c2, r1, r2⟩) := by
  unfold spawn_repair_worker
  dsimp only
  repeat first
    | exact init_closed_inv k
    | apply send1_closed_inv
    | apply execute_command_closed_inv
    | split

theorem update_closed_inv (k : Nat) (c1 : Bool) (r : CmdResult) :
    ClosedInv k (spawn_windows_update_worker ⟨some k, c1, r⟩) := by
  unfold spawn_windows_update_worker
  dsimp only
  repeat first
    | exact init_closed_inv k
    | apply send1_closed_inv
    | apply execute_command_closed_inv
    | split

theorem command_closed_inv (k : Nat) (c : String) (a : List String) (d : String)
    (c1 : Bool) (r : CmdResult) :
    ClosedInv k (spawn_command_worker c a d ⟨some k, c1, r⟩) := by
  unfold spawn_command_worker
  dsimp only
  repeat first
    | exact init_closed_inv k
    | apply send1_closed_inv
    | apply execute_command_closed_inv
    | split

/-- C6: if the receiving end of the channel disappears so that every
send attempt from index `k` on fails, then for every worker (any
cancellation readings, any launch outcomes): the emitted messages are
exactly the attempts strictly before the failure point (`tr = atr.take
k`, so nothing is emitted after a failed send), and every external
process launch was recorded at an attempt counter at most `k`, i.e. its
header send preceded the first failure — once a send has failed, no
further step's process is ever launched.  In particular a send failure
while streaming one step's output prevents every later step from
starting. -/
theorem send_failure_stops_worker (k : Nat) (c1 c2 : Bool) (r1 r2 ru rc : CmdResult)
    (c : String) (a : List String) (d : String) :
    ((spawn_repair_worker ⟨some k, c1, c2, r1, r2⟩).tr =
        (spawn_repair_worker ⟨some k, c1, c2, r1, r2⟩).atr.take k ∧
      ((spawn_repair_worker ⟨some k, c1, c2, r1, r2⟩).launches.all
        (fun p => decide (p.1 ≤ k))) = true) ∧
    ((spawn_windows_update_worker ⟨some k, c1, ru⟩).tr =
        (spawn_windows_update_worker ⟨some k, c1, ru⟩).atr.take k ∧
      ((spawn_windows_update_worker ⟨some k, c1, ru⟩).launches.all
        (fun p => decide (p.1 ≤ k))) = true) ∧
    ((spawn_command_worker c a d ⟨some k, c1, rc⟩).tr =
        (spawn_command_worker c a d ⟨some k, c1, rc⟩).atr.take k ∧
      ((spawn_command_worker c a d ⟨some k, c1, rc⟩).launches.all
        (fun p => decide (p.1 ≤ k))) = true) := by
  refine ⟨⟨(repair_closed_inv k c1 c2 r1 r2).2.1, ?_⟩,
    ⟨(update_closed_inv k c1 ru).2.1, ?_⟩,
    ⟨(command_closed_inv k c a d c1 rc).2.1, ?_⟩⟩
  · exact List.all_eq_true.mpr fun p hp =>
      decide_eq_true ((repair_closed_inv k c1 c2 r1 r2).2.2 p hp)
  · exact List.all_eq_true.mpr fun p hp =>
      decide_eq_true ((update_closed_inv k c1 ru).2.2 p hp)
  · exact List.all_eq_true.mpr fun p hp =>
      decide_eq_true ((command_closed_inv k c a d c1 rc).2.2 p hp)

/-! Step-runner claims. -/

/-- C7 counterexample: with the channel closing after the header send
(`cf = some 1`), the external process is launched (one launch recorded)
and exits with a success status, yet `execute_command` returns `false`
because the first streaming send fails — so the return value is not
equivalent to the exit status being a success. -/
theorem execute_command_false_despite_success :
    (execute_command (some 1) ExecSt.init "cmd" ["/C", "dir"]
        (.ok ⟨["x"], [], some 0, true⟩)).2 = false ∧
    (CmdResult.ok (⟨["x"], [], some 0, true⟩ : CmdOutput)).isSuccess = true ∧
    (execute_command (some 1) ExecSt.init "cmd" ["/C", "dir"]
        (.ok ⟨["x"], [], some 0, true⟩)).1.launches.length = 1 := by
  refine ⟨by decide, rfl, by decide⟩

/-- C7 amended: provided every send succeeds (receiver alive,
`cf = none`), `execute_command` returns `true` exactly when the external
process exited with a success status (`CmdResult.isSuccess`), hence
`false` on a non-zero exit or a launch failure; on a launch failure it
emits exactly one `Error` message carrying the failure reason (and the
header `Log` before it), and returns `false`. -/
theorem execute_command_success_iff_status (s : ExecSt) (c : String)
    (a : List String) (r : CmdResult) (e : String) :
    (execute_command none s c a r).2 = r.isSuccess ∧
    (execute_command none s c a (.err e)).2 = false ∧
    (execute_command none s c a (.err e)).1.tr =
      s.tr ++ [.Log ("Ejecutando: " ++ c ++ " " ++ String.intercalate " " a),
        .Error ("Error al ejecutar comando: " ++ e)] := by
  refine ⟨?_, ?_, ?_⟩
  · rw [execute_command_none]
  · rw [execute_command_none]
    rfl
  · rw [execute_command_none]
    exact afterCmd_tr s c a (.err e)

/-- C8 counterexample: the stdout line `" "` is non-empty, yet the step
runner emits no `Log` message for it (lines are trimmed before the
emptiness test), refuting "each non-empty line is emitted". -/
theorem whitespace_line_not_emitted :
    (" " : String) ≠ "" ∧
    WorkerMessage.Log " " ∉
      (execute_command none ExecSt.init "cmd" ["/C", "dir"]
        (.ok ⟨[" "], [], some 0, true⟩)).1.tr := by
  refine ⟨by decide, by decide⟩

/-- C8 amended: with the receiver alive, every line of standard output
and of standard error that has non-whitespace content is emitted as its
own `Log` message, and every stderr-derived line is prefixed with
`"ERROR: "` so the consumer can distinguish the two streams;
whitespace-only lines are skipped. -/
theorem nonblank_lines_each_logged (s : ExecSt) (c : String) (a : List String)
    (o : CmdOutput) :
    ((o.stdout.filter (fun l => !isBlank l)).all
      (fun l => (execute_command none s c a (.ok o)).1.tr.contains (.Log l))) = true ∧
    ((o.stderr.filter (fun l => !isBlank l)).all
      (fun l => (execute_command none s c a (.ok o)).1.tr.contains
        (.Log ("ERROR: " ++ l)))) = true := by
  rw [execute_command_none]
  constructor
  · refine List.all_eq_true.mpr fun l hl => List.elem_eq_true_of_mem ?_
    rw [afterCmd_tr]
    refine List.mem_append.mpr (Or.inr ?_)
    show WorkerMessage.Log l ∈ cmdMsgs c a (.ok o)
    rw [cmdMsgs]
    refine List.mem_cons_of_mem _ (List.mem_append.mpr (Or.inl (List.mem_append.mpr
      (Or.inl ?_))))
    refine List.mem_map.mpr ⟨l, hl, ?_⟩
    rw [String.empty_append]
  · refine List.all_eq_true.mpr fun l hl => List.elem_eq_true_of_mem ?_
    rw [afterCmd_tr]
    refine List.mem_append.mpr (Or.inr ?_)
    show WorkerMessage.Log ("ERROR: " ++ l) ∈ cmdMsgs c a (.ok o)
    rw [cmdMsgs]
    refine List.mem_cons_of_mem _ (List.mem_append.mpr (Or.inl (List.mem_append.mpr
      (Or.inr ?_))))
    exact List.mem_map.mpr ⟨l, hl, rfl⟩

/-- C10: within one step the captured output is translated to messages
only after the process has exited (the runner consumes one complete
`CmdOutput`): the emitted block is the header `Log`, then all non-blank
stdout lines in order, then all non-blank stderr lines in order (tagged
`"ERROR: "`), then the status line — so every stdout-derived `Log`
precedes every stderr-derived `Log` whatever the real-time interleaving
was, and a whitespace-only line, though non-empty, yields no message. -/
theorem stdout_block_before_stderr_block (s : ExecSt) (c : String)
    (a : List String) (o : CmdOutput) :
    (execute_command none s c a (.ok o)).1.tr =
      s.tr ++ .Log ("Ejecutando: " ++ c ++ " " ++ String.intercalate " " a) ::
        ((o.stdout.filter (fun l => !isBlank l)).map (fun l => .Log ("" ++ l)) ++
         (o.stderr.filter (fun l => !isBlank l)).map (fun l => .Log ("ERROR: " ++ l)) ++
         [if o.success then .Log "✓ Comando completado exitosamente"
          else .Log ("✗ Comando falló con código: " ++ fmtCode o.code)]) := by
  rw [execute_command_none]
  exact afterCmd_tr s c a (.ok o)

/-! Start-up protocol. -/

/-- A run state in which `StateChange(Starting)` occurs neither among
the emitted messages nor among the attempted ones. -/
def NoStarting (s : ExecSt) : Prop :=
  WorkerMessage.StateChange .Starting ∉ s.tr ∧
  WorkerMessage.StateChange .Starting ∉ s.atr

theorem init_no_starting : NoStarting ExecSt.init := by
  constructor <;> simp [ExecSt.init]

theorem send1_no_starting (cf : Option Nat) (s : ExecSt) (m : WorkerMessage)
    (hm : m ≠ .StateChange .Starting) (h : NoStarting s) :
    NoStarting (send1 cf s m).1 := by
  obtain ⟨h1, h2⟩ := h
  constructor
  · simp only [send1]
    split
    · intro hmem
      rcases List.mem_append.mp hmem with hx | hx
      · exact h1 hx
      · exact hm (List.mem_singleton.mp hx).symm
    · exact h1
  · simp only [send1]
    intro hmem
    rcases List.mem_append.mp hmem with hx | hx
    · exact h2 hx
    · exact hm (List.mem_singleton.mp hx).symm

theorem sendLines_no_starting (cf : Option Nat) (pre : String) (ls : List String) :
    ∀ s : ExecSt, NoStarting s → NoStarting (sendLines cf pre s ls).1 := by
  induction ls with
  | nil => intro s h; simpa [sendLines] using h
  | cons l rest ih =>
    intro s h
    rw [sendLines]
    by_cases hb : isBlank l
    · simpa [hb] using ih s h
    · simp only [hb, Bool.false_eq_true, if_false]
      by_cases hp : (send1 cf s (.Log (pre ++ l))).2 = true
      · simpa [hp] using ih _ (send1_no_starting cf s _ (by simp) h)
      · simpa [hp] using send1_no_starting cf s _ (by simp) h

theorem launch_no_starting (cf : Option Nat) (s : ExecSt) (m : WorkerMessage)
    (c : String) (a : List String) (hm : m ≠ .StateChange .Starting)
    (h : NoStarting s) :
    NoStarting ⟨(send1 cf s m).1.n, (send1 cf s m).1.tr, (send1 cf s m).1.atr,
      (send1 cf s m).1.calls,
      (send1 cf s m).1.launches ++ [((send1 cf s m).1.n, c, a)]⟩ := by
  obtain ⟨h1, h2⟩ := send1_no_starting cf s m hm h
  exact ⟨h1, h2⟩

theorem execute_command_no_starting (cf : Option Nat) (s : ExecSt) (c : String)
    (a : List String) (r : CmdResult) (h : NoStarting s) :
    NoStarting (execute_command cf s c a r).1 := by
  have h1 : NoStarting (⟨s.n, s.tr, s.atr, s.calls ++ [(c, a)], s.launches⟩ : ExecSt) :=
    ⟨h.1, h.2⟩
  unfold execute_command
  cases r with
  | err e =>
    dsimp only
    split
    · exact send1_no_starting _ _ _ (by simp) h1
    · exact send1_no_starting _ _ _ (by simp)
        (launch_no_starting cf _ _ c a (by simp) h1)
  | ok o =>
    dsimp only
    split
    · exact send1_no_starting _ _ _ (by simp) h1
    · have h3 := launch_no_starting cf
        (⟨s.n, s.tr, s.atr, s.calls ++ [(c, a)], s.launches⟩ : ExecSt)
        (.Log ("Ejecutando: " ++ c ++ " " ++ String.intercalate " " a)) c a
        (by simp) h1
      have h6 := sendLines_no_starting cf "" o.stdout _ h3
      split
      · exact h6
      · have h7 := sendLines_no_starting cf "ERROR: " o.stderr _ h6
        split
        · exact h7
        · split
          · exact send1_no_starting _ _ _ (by simp) h7
          · exact send1_no_starting _ _ _ (by simp) h7

theorem repair_no_starting (env : RepairEnv) :
    NoStarting (spawn_repair_worker env) := by
  unfold spawn_repair_worker
  dsimp only
  repeat first
    | exact init_no_starting
    | refine send1_no_starting _ _ _ (by simp) ?_
    | refine execute_command_no_starting _ _ _ _ _ ?_
    | split

theorem update_no_starting (env : SingleEnv) :
    NoStarting (spawn_windows_update_worker env) := by
  unfold spawn_windows_update_worker
  dsimp only
  repeat first
    | exact init_no_starting
    | refine send1_no_starting _ _ _ (by simp) ?_
    | refine execute_command_no_starting _ _ _ _ _ ?_
    | split

theorem command_no_starting (c : String) (a : List String) (d : String)
    (env : SingleEnv) : NoStarting (spawn_command_worker c a d env) := by
  unfold spawn_command_worker
  dsimp only
  repeat first
    | exact init_no_starting
    | refine send1_no_starting _ _ _ (by simp) ?_
    | refine execute_command_no_starting _ _ _ _ _ ?_
    | split

/-- C4 counterexample: with a live receiver, the repair worker's first
two emitted messages are `StateChange(Running)` followed by the header
`Log` — not `StateChange(Starting)` followed by `StateChange(Running)`:
no worker ever emits `StateChange(Starting)`. -/
theorem no_starting_state_emitted :
    (spawn_repair_worker ⟨none, false, false,
        .ok ⟨[], [], some 0, true⟩, .ok ⟨[], [], some 0, true⟩⟩).tr.take 2 ≠
      [.StateChange .Starting, .StateChange .Running] := by
  decide

/-- C4 amended: on start every worker's first two emitted messages are
`StateChange(Running)` and then its header `Log`; no worker ever emits —
or even attempts to send — `StateChange(Starting)`, in any environment
(any channel-closure point, flag readings and launch outcomes); if the
first emission fails because the channel is closed (`cf = some 0`), or
the second does (`cf = some 1`), the worker aborts silently without
doing any further work: no further send attempt is made, no step-runner
call and no process launch occur. -/
theorem start_running_then_header_else_silent_abort (c1 c2 : Bool)
    (r1 r2 ru rc : CmdResult) (c : String) (a : List String) (d : String)
    (er : RepairEnv) (eu ec : SingleEnv) :
    ((spawn_repair_worker ⟨none, c1, c2, r1, r2⟩).tr.take 2 =
        [.StateChange .Running, .Log "=== Iniciando Reparación del Sistema ==="] ∧
      spawn_repair_worker ⟨some 0, c1, c2, r1, r2⟩ =
        ⟨1, [], [.StateChange .Running], [], []⟩ ∧
      spawn_repair_worker ⟨some 1, c1, c2, r1, r2⟩ =
        ⟨2, [.StateChange .Running],
         [.StateChange .Running, .Log "=== Iniciando Reparación del Sistema ==="],
         [], []⟩ ∧
      WorkerMessage.StateChange .Starting ∉ (spawn_repair_worker er).tr ∧
      WorkerMessage.StateChange .Starting ∉ (spawn_repair_worker er).atr) ∧
    ((spawn_windows_update_worker ⟨none, c1, ru⟩).tr.take 2 =
        [.StateChange .Running, .Log "=== Iniciando Limpieza de Windows Update ==="] ∧
      spawn_windows_update_worker ⟨some 0, c1, ru⟩ =
        ⟨1, [], [.StateChange .Running], [], []⟩ ∧
      spawn_windows_update_worker ⟨some 1, c1, ru⟩ =
        ⟨2, [.StateChange .Running],
         [.StateChange .Running, .Log "=== Iniciando Limpieza de Windows Update ==="],
         [], []⟩ ∧
      WorkerMessage.StateChange .Starting ∉ (spawn_windows_update_worker eu).tr ∧
      WorkerMessage.StateChange .Starting ∉ (spawn_windows_update_worker eu).atr) ∧
    ((spawn_command_worker c a d ⟨none, c1, rc⟩).tr.take 2 =
        [.StateChange .Running, .Log ("=== " ++ d ++ " ===")] ∧
      spawn_command_worker c a d ⟨some 0, c1, rc⟩ =
        ⟨1, [], [.StateChange .Running], [], []⟩ ∧
      spawn_command_worker c a d ⟨some 1, c1, rc⟩ =
        ⟨2, [.StateChange .Running],
         [.StateChange .Running, .Log ("=== " ++ d ++ " ===")], [], []⟩ ∧
      WorkerMessage.StateChange .Starting ∉ (spawn_command_worker c a d ec).tr ∧
      WorkerMessage.StateChange .Starting ∉ (spawn_command_worker c a d ec).atr) := by
  refine ⟨⟨?_, ?_, ?_, (repair_no_starting er).1, (repair_no_starting er).2⟩,
    ⟨?_, ?_, ?_, (update_no_starting eu).1, (update_no_starting eu).2⟩,
    ⟨?_, ?_, ?_, (command_no_starting c a d ec).1, (command_no_starting c a d ec).2⟩⟩
  · cases c1
    · cases c2
      · rw [repair_none_main]
        cases h1 : r1.isSuccess <;>
          simp [repairMid, h1, emit_tr, afterCmd_tr, init_tr]
      · rw [repair_none_c2]
        cases h1 : r1.isSuccess <;>
          simp [repairMid, h1, emit_tr, afterCmd_tr, init_tr]
    · rw [repair_none_c1]
      simp [emit_tr, init_tr]
  · simp [spawn_repair_worker, send1, sendOK, ExecSt.init]
  · simp [spawn_repair_worker, send1, sendOK, ExecSt.init]
  · cases c1
    · rw [update_none_main]
      cases h : ru.isSuccess <;> simp [h, emit_tr, afterCmd_tr, init_tr]
    · rw [update_none_c1]
      simp [emit_tr, init_tr]
  · simp [spawn_windows_update_worker, send1, sendOK, ExecSt.init]
  · simp [spawn_windows_update_worker, send1, sendOK, ExecSt.init]
  · cases c1
    · rw [command_none_main]
      cases h : rc.isSuccess <;> simp [h, emit_tr, afterCmd_tr, init_tr]
    · rw [command_none_c1]
      simp [emit_tr, init_tr]
  · simp [spawn_command_worker, send1, sendOK, ExecSt.init]
  · simp [spawn_command_worker, send1, sendOK, ExecSt.init]

/-! Handle teardown and the per-tick drain. -/

/-- C2: dropping a `WorkerHandle` whose thread handle is present
performs exactly the action sequence "store `true` into the shared
cancellation flag, then join the thread", in that order; since
`joinThread` models `JoinHandle::join`, which returns only after the
thread has exited, once the drop has run the flag is set and the
background thread is no longer running. -/
theorem drop_sets_flag_then_joins (h : WorkerHandleM) (t : ThreadSt)
    (hp : h.thread_handle.isSome = true) :
    h.dropActions = [.storeFlag true, .joinThread] ∧
    (runDrop t h).cancel_flag = true ∧
    (runDrop t h).running = false := by
  rcases h with ⟨th⟩
  cases th with
  | none => simp at hp
  | some u => exact ⟨rfl, rfl, rfl⟩

/-- Witness for C2: a handle with a thread handle present, dropped while
the thread is still running, ends with the flag set and the thread
joined. -/
theorem drop_sets_flag_then_joins_witness :
    (WorkerHandleM.mk (some ())).thread_handle.isSome = true ∧
    ((WorkerHandleM.mk (some ())).dropActions = [.storeFlag true, .joinThread] ∧
      (runDrop ⟨false, true⟩ ⟨some ()⟩).cancel_flag = true ∧
      (runDrop ⟨false, true⟩ ⟨some ()⟩).running = false) :=
  ⟨rfl, drop_sets_flag_then_joins ⟨some ()⟩ ⟨false, true⟩ rfl⟩

/-- Whether a message is the `Completed` sentinel. -/
def isCompletedMsg : WorkerMessage → Bool
  | .Completed => true
  | _ => false

theorem applyMsg_snd (st : AppSt) (m : WorkerMessage) :
    (applyMsg st m).2 = isCompletedMsg m := by
  cases m <;> rfl

theorem drainLoop_clear (ms : List WorkerMessage) : ∀ (st : AppSt) (b : Bool),
    (drainLoop st b ms).2 = (b || ms.any isCompletedMsg) := by
  induction ms with
  | nil => intro st b; simp [drainLoop]
  | cons m rest ih =>
    intro st b
    rw [drainLoop, ih, applyMsg_snd]
    simp [Bool.or_assoc]

/-- C9: the per-tick drain consumes exactly the currently-pending
messages (this is what the non-blocking `try_recv`-until-empty loop
does; no blocking receive is representable in this model) and applies
each one as the code does: `Log` appends the line to the log buffer,
`StateChange` overwrites the operation state, `StatsUpdate`
wholesale-replaces the counters, `Error` appends an error-tagged log
line; if a `Completed` is among the drained messages the worker-handle
slot is set back to empty after the loop; and with no pending messages
the drain returns the state with logs, state, stats and handle all
unchanged. -/
theorem drain_applies_messages (st : AppSt) (l e : String) (os : OperationState)
    (cs : CleanStats) (ms : List WorkerMessage)
    (hocc : st.worker_handle = true) (hm : WorkerMessage.Completed ∈ ms) :
    process_worker_messages st [] = st ∧
    process_worker_messages st [.Log l] =
      ⟨st.operation_logs ++ [l], st.operation_state, st.clean_stats,
       st.worker_handle⟩ ∧
    process_worker_messages st [.StateChange os] =
      ⟨st.operation_logs, os, st.clean_stats, st.worker_handle⟩ ∧
    process_worker_messages st [.StatsUpdate cs] =
      ⟨st.operation_logs, st.operation_state, cs, st.worker_handle⟩ ∧
    process_worker_messages st [.Error e] =
      ⟨st.operation_logs ++ ["❌ ERROR: " ++ e], st.operation_state, st.clean_stats,
       st.worker_handle⟩ ∧
    (process_worker_messages st ms).worker_handle = false := by
  have hclear : (drainLoop st false ms).2 = true := by
    rw [drainLoop_clear]
    simp [List.any_eq_true]
    exact ⟨.Completed, hm, rfl⟩
  refine ⟨?_, ?_, ?_, ?_, ?_, ?_⟩
  · simp [process_worker_messages, drainLoop]
  · simp [process_worker_messages, hocc, drainLoop, applyMsg]
  · simp [process_worker_messages, hocc, drainLoop, applyMsg]
  · simp [process_worker_messages, hocc, drainLoop, applyMsg]
  · simp [process_worker_messages, hocc, drainLoop, applyMsg]
  · simp [process_worker_messages, hocc, hclear]

/-- Witness for C9 at a concrete occupied state with one pending
`Completed` message. -/
theorem drain_applies_messages_witness :
    (⟨[], .Idle, ⟨0, 0, 0⟩, true⟩ : AppSt).worker_handle = true ∧
    WorkerMessage.Completed ∈ [WorkerMessage.Completed] ∧
    (process_worker_messages ⟨[], .Idle, ⟨0, 0, 0⟩, true⟩ [] =
        ⟨[], .Idle, ⟨0, 0, 0⟩, true⟩ ∧
      process_worker_messages ⟨[], .Idle, ⟨0, 0, 0⟩, true⟩ [.Log "a"] =
        ⟨[] ++ ["a"], .Idle, ⟨0, 0, 0⟩, true⟩ ∧
      process_worker_messages ⟨[], .Idle, ⟨0, 0, 0⟩, true⟩ [.StateChange .Running] =
        ⟨[], .Running, ⟨0, 0, 0⟩, true⟩ ∧
      process_worker_messages ⟨[], .Idle, ⟨0, 0, 0⟩, true⟩ [.StatsUpdate ⟨1, 2, 3⟩] =
        ⟨[], .Idle, ⟨1, 2, 3⟩, true⟩ ∧
      process_worker_messages ⟨[], .Idle, ⟨0, 0, 0⟩, true⟩ [.Error "b"] =
        ⟨[] ++ ["❌ ERROR: " ++ "b"], .Idle, ⟨0, 0, 0⟩, true⟩ ∧
      (process_worker_messages ⟨[], .Idle, ⟨0, 0, 0⟩, true⟩
        [WorkerMessage.Completed]).worker_handle = false) :=
  ⟨rfl, List.mem_singleton.mpr rfl,
    drain_applies_messages ⟨[], .Idle, ⟨0, 0, 0⟩, true⟩ "a" "b" .Running ⟨1, 2, 3⟩
      [WorkerMessage.Completed] rfl (List.mem_singleton.mpr rfl)⟩

end WinOpt
